import Mathlib

/-!
Shallow embedding of the `uvaii-todo-backend` Express server
(`src/server.js`): data model, JWT issue/verify, bcrypt hash/compare,
the authentication middleware, and the register / login / task CRUD
handlers, each modelled as a pure function from the database state and
the request to the new state and the HTTP response.

Conventions of the embedding:
* JavaScript `undefined`/`null` request-body fields are `Option.none`;
  a field that is present and non-null is `Option.some`.
* The Prisma database is a `DB`: lists of user and task records plus
  the autoincrement counters for the two `id` columns.
* `bcrypt.hash(p, 10)` draws a random salt; the randomness is passed in
  as an explicit `salt` argument.  The digest is modelled invertibly so
  that `bcrypt.compare` can be computed; one-wayness is not needed by
  any theorem below.
* A JWT on the wire is a string.  The string space is modelled by its
  decode behaviour: a string either decodes to a signed payload
  (constructor `JStr.jwt`, carrying the payload and the signature) or it
  does not (`JStr.plain`).  The HMAC signature is modelled as the pair
  of the secret and the signed fields.
* The `Authorization` header is modelled by the four classes of strings
  that `authHeader && authHeader.split(' ')[1]` distinguishes: header
  absent, header `""` (falsy, so the JS `&&` yields `""` itself, which
  passes the `token == null` check), header without a second
  space-separated word (`split(' ')[1]` is `undefined`), and header
  whose second word is a token string.
-/

namespace Todo

/-- Default signing secret, `src/server.js` line 18. -/
def JWT_SECRET : String := "your_super_secret_jwt_key_12345"

/-- `expiresIn: '7d'` (`src/server.js` lines 112, 154), in seconds. -/
def SEVEN_DAYS : Nat := 7 * 24 * 60 * 60

/-- A bcrypt digest: the salt and the (modelled) one-way image of the
plaintext.  The type is distinct from `String`, so a stored
`passwordHash` is never the plaintext password itself. -/
structure BcryptHash where
  salt : Nat
  digest : String
deriving DecidableEq, Repr

/-- `bcrypt.hash(plaintext, 10)` with the per-call random salt made
explicit. -/
def bcryptHash (plaintext : String) (salt : Nat) : BcryptHash :=
  ⟨salt, plaintext⟩

/-- `bcrypt.compare(plaintext, hash)`: recompute with the salt embedded
in `hash` and compare digests. -/
def bcryptCompare (plaintext : String) (h : BcryptHash) : Bool :=
  bcryptHash plaintext h.salt = h

/-- A JWT-bearing string: either a well-formed signed token (payload
`{userId}`, `iat`, `exp`, and the signature binding the secret to the
payload) or a string that does not decode as a JWT. -/
inductive JStr where
  | jwt (userId iat exp : Nat) (sig : String × Nat × Nat)
  | plain (s : String)
deriving DecidableEq, Repr

/-- `jwt.sign({ userId }, secret, { expiresIn: '7d' })`. -/
def jwtSign (secret : String) (userId : Nat) (now : Nat) : JStr :=
  .jwt userId now (now + SEVEN_DAYS) (secret, userId, now + SEVEN_DAYS)

/-- `jwt.verify(token, secret, cb)`: `some userId` on success, `none`
when the string is not a JWT, the signature does not check out against
`secret`, or the token is expired. -/
def jwtVerify (secret : String) (now : Nat) : JStr → Option Nat
  | .plain _ => none
  | .jwt uid _ exp sig =>
      if sig = (secret, uid, exp) ∧ now ≤ exp then some uid else none

/-- Prisma `User` row. -/
structure User where
  id : Nat
  username : String
  email : String
  passwordHash : BcryptHash
deriving DecidableEq, Repr

/-- Prisma `Task` row; the completion column is named `isDone`. -/
structure Task where
  id : Nat
  title : String
  isDone : Bool
  authorId : Nat
deriving DecidableEq, Repr

/-- The external (Flutter-facing) task shape; the completion field is
named `completed`. -/
structure FlutterTask where
  id : Nat
  title : String
  completed : Bool
  authorId : Nat
deriving DecidableEq, Repr

/-- `mapPrismaToFlutter` (`src/server.js` lines 33-44): rename `isDone`
to `completed`, keep the rest. -/
def mapPrismaToFlutter (t : Task) : FlutterTask :=
  ⟨t.id, t.title, t.isDone, t.authorId⟩

/-- The Prisma-managed store: the two tables and their autoincrement
counters. -/
structure DB where
  users : List User
  tasks : List Task
  nextUserId : Nat
  nextTaskId : Nat
deriving DecidableEq, Repr

/-- The user object embedded in register/login responses
(`{ id, username, email }`, no password hash). -/
structure PublicUser where
  id : Nat
  username : String
  email : String
deriving DecidableEq, Repr

/-- JSON response bodies the handlers produce. -/
inductive RespBody where
  | error (msg : String)
  | registerOk (message : String) (token : JStr) (user : PublicUser)
  | loginOk (message : String) (token : JStr) (user : PublicUser)
  | taskList (tasks : List FlutterTask)
  | task (t : FlutterTask)
  | taskOpt (t : Option FlutterTask)
  | message (msg : String)
deriving DecidableEq, Repr

/-- An HTTP response: status code and JSON body. -/
structure Resp where
  status : Nat
  body : RespBody
deriving DecidableEq, Repr

/-- JavaScript `String.prototype.trim()`: strip leading and trailing
whitespace.  (Defined structurally over the character list so that it
evaluates inside the kernel.) -/
def jsTrim (s : String) : String :=
  ⟨((s.data.dropWhile Char.isWhitespace).reverse.dropWhile
      Char.isWhitespace).reverse⟩

/-- JavaScript falsiness of an optional string field: `undefined`,
`null` and `""` are falsy. -/
def strFalsy : Option String → Bool
  | none => true
  | some s => s = ""

/-- `POST /api/register` request body. -/
structure RegisterBody where
  username : Option String
  email : Option String
  password : Option String
deriving DecidableEq, Repr

/-- `POST /api/login` request body. -/
structure LoginBody where
  email : Option String
  password : Option String
deriving DecidableEq, Repr

/-- `POST /api/register` handler (`src/server.js` lines 80-124).
`none` body models a missing/empty JSON body; `salt` is the randomness
of `bcrypt.hash`; `now` the clock read by `jwt.sign`. -/
def register (db : DB) (salt now : Nat) (body : Option RegisterBody) :
    DB × Resp :=
  match body with
  | none => (db, ⟨400, .error "Request body missing or invalid JSON format."⟩)
  | some b =>
    if strFalsy b.username || strFalsy b.email || strFalsy b.password then
      (db, ⟨400, .error "Please provide username, email, and password."⟩)
    else
      let username := b.username.getD ""
      let email := b.email.getD ""
      let password := b.password.getD ""
      match db.users.find? (fun u => u.username = username || u.email = email) with
      | some _ =>
          (db, ⟨409, .error "User with this username or email already exists."⟩)
      | none =>
          let passwordHash := bcryptHash password salt
          let newUser : User := ⟨db.nextUserId, username, email, passwordHash⟩
          let token := jwtSign JWT_SECRET newUser.id now
          ({ db with users := db.users ++ [newUser],
                     nextUserId := db.nextUserId + 1 },
           ⟨201, .registerOk "User registered successfully" token
                   ⟨newUser.id, newUser.username, newUser.email⟩⟩)

/-- `POST /api/login` handler (`src/server.js` lines 127-166); it never
writes to the store, so only the response is returned. -/
def login (db : DB) (now : Nat) (body : Option LoginBody) : Resp :=
  match body with
  | none => ⟨400, .error "Request body missing or invalid JSON format."⟩
  | some b =>
    if strFalsy b.email || strFalsy b.password then
      ⟨400, .error "Please provide email and password."⟩
    else
      let email := b.email.getD ""
      let password := b.password.getD ""
      match db.users.find? (fun u => u.email = email) with
      | none => ⟨401, .error "Invalid email or password."⟩
      | some user =>
          if bcryptCompare password user.passwordHash then
            ⟨200, .loginOk "Login successful" (jwtSign JWT_SECRET user.id now)
                    ⟨user.id, user.username, user.email⟩⟩
          else ⟨401, .error "Invalid email or password."⟩

/-- The `Authorization` header, classified by the behaviour of
`authHeader && authHeader.split(' ')[1]` on it (see the header comment
of this file). -/
inductive AuthHeader where
  | missing
  | emptyHeader
  | noSecondWord (value : String)
  | bearer (scheme : String) (token : JStr)
deriving DecidableEq, Repr

/-- `const token = authHeader && authHeader.split(' ')[1]`, followed by
the `token == null` test: `none` exactly when that test fires.  Note the
JS quirk: an empty header value short-circuits `&&` to `""`, which is
not `null`, so it proceeds to verification as the (garbage) token `""`. -/
def extractToken : AuthHeader → Option JStr
  | .missing => none
  | .emptyHeader => some (.plain "")
  | .noSecondWord _ => none
  | .bearer _ t => some t

/-- `authenticateToken` middleware (`src/server.js` lines 54-73):
either an early-rejection response, or the verified `userId` attached
to the request (`req.userId`). -/
def authenticateToken (secret : String) (now : Nat) (hdr : AuthHeader) :
    Except Resp Nat :=
  match extractToken hdr with
  | none => .error ⟨401, .error "Unauthorized: Token missing."⟩
  | some t =>
    match jwtVerify secret now t with
    | none => .error ⟨403, .error "Forbidden: Invalid or expired token."⟩
    | some uid => .ok uid

/-- `app.use('/api/tasks', authenticateToken)` (`src/server.js` line
174): the gate runs first; only on success does the route handler run,
with the verified identity. -/
def runProtected (now : Nat) (hdr : AuthHeader)
    (handler : Nat → DB → DB × Resp) (db : DB) : DB × Resp :=
  match authenticateToken JWT_SECRET now hdr with
  | .error r => (db, r)
  | .ok uid => handler uid db

/-- The Prisma `orderBy: [{ isDone: 'asc' }, { id: 'asc' }]` comparison:
incomplete (`false`) before complete (`true`), then id ascending. -/
def taskLe (a b : Task) : Bool :=
  (!a.isDone && b.isDone) || (a.isDone == b.isDone && a.id ≤ b.id)

/-- The list computed by the `GET /api/tasks` handler (`src/server.js`
lines 180-200): filter by `authorId`, sort, map to the external shape. -/
def getTasksList (db : DB) (userId : Nat) : List FlutterTask :=
  (((db.tasks.filter (fun t => t.authorId = userId))).mergeSort taskLe).map
    mapPrismaToFlutter

/-- `GET /api/tasks` handler: always `200` with the ordered list. -/
def getTasks (db : DB) (userId : Nat) : Resp :=
  ⟨200, .taskList (getTasksList db userId)⟩

/-- Request body for `POST /api/tasks` and `PUT /api/tasks/:id`.  The
fields beyond those each handler destructures are carried so that the
theorems can quantify over client-supplied junk (`authorId`, a spoofed
owner, `completed` on create, ...). -/
structure TaskBody where
  title : Option String
  completed : Option Bool
  isDone : Option Bool
  authorId : Option Nat
deriving DecidableEq, Repr

/-- `POST /api/tasks` handler (`src/server.js` lines 203-226).  Only
`title` is read from the body; `isDone` is forced to `false` and
`authorId` to the authenticated user. -/
def createTask (db : DB) (userId : Nat) (body : TaskBody) : DB × Resp :=
  if strFalsy body.title || jsTrim (body.title.getD "") = "" then
    (db, ⟨400, .error "Task title is required."⟩)
  else
    let title := body.title.getD ""
    let newTask : Task := ⟨db.nextTaskId, title, false, userId⟩
    ({ db with tasks := db.tasks ++ [newTask], nextTaskId := db.nextTaskId + 1 },
     ⟨201, .task (mapPrismaToFlutter newTask)⟩)

/-- The `updateData.isDone` computation of the PUT handler
(`src/server.js` lines 248-254): `completed` from the body if present
and non-null, else `isDone` if present and non-null, else nothing. -/
def updDone (body : TaskBody) : Option Bool :=
  match body.completed with
  | some c => some c
  | none => body.isDone

/-- The per-row effect of the PUT handler's `updateMany`: a row matching
the `(id, authorId)` scope takes the fields of `updateData` (title when
supplied, completion when supplied); any other row is untouched. -/
def applyUpdate (body : TaskBody) (taskId userId : Nat) (t : Task) : Task :=
  if t.id = taskId ∧ t.authorId = userId then
    { t with title := (body.title).getD t.title,
             isDone := (updDone body).getD t.isDone }
  else t

/-- `PUT /api/tasks/:id` handler (`src/server.js` lines 229-283).
`taskIdRaw = none` models `isNaN(parseInt(req.params.id))`.  The
`updateMany` is scoped by `(id, authorId)`; on zero matched rows the
merged 404 is returned; on success the row is re-fetched by id
(`findUnique`) and returned through `mapPrismaToFlutter`. -/
def updateTask (db : DB) (userId : Nat) (taskIdRaw : Option Nat)
    (body : TaskBody) : DB × Resp :=
  match taskIdRaw with
  | none => (db, ⟨400, .error "Invalid task ID."⟩)
  | some taskId =>
    let titleBlank := match body.title with
      | some t => jsTrim t == ""
      | none => false
    if titleBlank then
      (db, ⟨400, .error "Task title cannot be empty."⟩)
    else if body.title = none ∧ updDone body = none then
      (db, ⟨400, .error "Must provide title or completed status for update."⟩)
    else
      let count := (db.tasks.filter
        (fun t => t.id = taskId && t.authorId = userId)).length
      if count = 0 then
        (db, ⟨404, .error "Task not found or unauthorized."⟩)
      else
        let newTasks := db.tasks.map (applyUpdate body taskId userId)
        let fetched := newTasks.find? (fun t => t.id = taskId)
        ({ db with tasks := newTasks },
         ⟨200, .taskOpt (fetched.map mapPrismaToFlutter)⟩)

/-- `DELETE /api/tasks/:id` handler (`src/server.js` lines 286-312):
`deleteMany` scoped by `(id, authorId)`, merged 404 on zero rows. -/
def deleteTask (db : DB) (userId : Nat) (taskIdRaw : Option Nat) :
    DB × Resp :=
  match taskIdRaw with
  | none => (db, ⟨400, .error "Invalid task ID."⟩)
  | some taskId =>
    let count := (db.tasks.filter
      (fun t => t.id = taskId && t.authorId = userId)).length
    if count = 0 then
      (db, ⟨404, .error "Task not found or unauthorized."⟩)
    else
      ({ db with tasks :=
          db.tasks.filter (fun t => !(t.id = taskId && t.authorId = userId)) },
       ⟨200, .message "Task deleted successfully."⟩)

/-- The PUT handler's own body validation: title, when present, is
non-blank after trimming, and at least one updatable field is present. -/
def updateBodyValid (body : TaskBody) : Prop :=
  (∀ t, body.title = some t → ¬ jsTrim t = "") ∧
  ¬ (body.title = none ∧ updDone body = none)

instance (body : TaskBody) : Decidable (updateBodyValid body) := by
  unfold updateBodyValid
  infer_instance

/-! ## Helper lemmas -/

/-- Verifying a freshly signed token with the same secret succeeds with
the signed `userId`, at any time up to expiry. -/
theorem jwtVerify_jwtSign (secret : String) (uid now now' : Nat)
    (h : now' ≤ now + SEVEN_DAYS) :
    jwtVerify secret now' (jwtSign secret uid now) = some uid := by
  simp [jwtVerify, jwtSign, h]

/-- The generic login failure response (status 401). -/
def loginFailureResp : Resp := ⟨401, .error "Invalid email or password."⟩

/-- Register, success branch: with a well-formed body and no existing
user holding the username or email, one record is appended and the
`201` response carries the fresh token and public user object. -/
theorem register_success_eq (db : DB) (salt now : Nat) (b : RegisterBody)
    (hwfu : strFalsy b.username = false) (hwfe : strFalsy b.email = false)
    (hwfp : strFalsy b.password = false)
    (hfree : db.users.find?
      (fun u => u.username = b.username.getD "" || u.email = b.email.getD "") =
        none) :
    register db salt now (some b) =
      ({ db with
          users := db.users ++
            [⟨db.nextUserId, b.username.getD "", b.email.getD "",
              bcryptHash (b.password.getD "") salt⟩],
          nextUserId := db.nextUserId + 1 },
       ⟨201, .registerOk "User registered successfully"
          (jwtSign JWT_SECRET db.nextUserId now)
          ⟨db.nextUserId, b.username.getD "", b.email.getD ""⟩⟩) := by
  unfold register
  simp only [hwfu, hwfe, hwfp, Bool.or_self, Bool.or_false, Bool.false_eq_true,
    if_false]
  rw [hfree]

/-- Register, conflict branch: a matching existing record makes the
handler answer `409` without touching the store. -/
theorem register_conflict_eq (db : DB) (salt now : Nat) (b : RegisterBody)
    (hwfu : strFalsy b.username = false) (hwfe : strFalsy b.email = false)
    (hwfp : strFalsy b.password = false) (v : User)
    (hfind : db.users.find?
      (fun u => u.username = b.username.getD "" || u.email = b.email.getD "") =
        some v) :
    register db salt now (some b) =
      (db, ⟨409, .error "User with this username or email already exists."⟩) := by
  unfold register
  simp only [hwfu, hwfe, hwfp, Bool.or_self, Bool.or_false, Bool.false_eq_true,
    if_false]
  rw [hfind]

/-! ## Theorems for the claims -/

/-- **C2.** Login with a well-formed body fails with the one generic
`401` response both when no user record has the given email and when a
user record exists but password verification against its stored hash
fails; the two causes produce literally identical responses. -/
theorem login_failure_indistinguishable (db : DB) (now : Nat)
    (b : LoginBody)
    (hwfe : strFalsy b.email = false) (hwfp : strFalsy b.password = false)
    (hfail : db.users.find? (fun u => u.email = b.email.getD "") = none ∨
      ∃ u, db.users.find? (fun u => u.email = b.email.getD "") = some u ∧
        bcryptCompare (b.password.getD "") u.passwordHash = false) :
    login db now (some b) = loginFailureResp := by
  unfold login
  simp only [hwfe, hwfp, Bool.or_self, Bool.or_false, Bool.false_eq_true,
    if_false]
  rcases hfail with hnone | ⟨u, hu, hbad⟩
  · rw [hnone]
    rfl
  · rw [hu]
    simp only [hbad, Bool.false_eq_true, if_false]
    rfl

/-- Witness for C2: empty store, so the email is unknown. -/
theorem login_failure_indistinguishable_witness :
    login ⟨[], [], 1, 1⟩ 0 (some ⟨some "a@x.com", some "p"⟩) =
      loginFailureResp :=
  login_failure_indistinguishable ⟨[], [], 1, 1⟩ 0
    ⟨some "a@x.com", some "p"⟩ (by decide) (by decide) (Or.inl rfl)

/-- **C3.** Whenever registration answers `201`, the token in the
response verifies (with the server's secret, at any time up to expiry)
to exactly the id of the user record that the registration appended,
which is also the id in the response's user object. -/
theorem register_token_verifies (db : DB) (salt now now' : Nat)
    (body : Option RegisterBody) (m : String) (tok : JStr) (pu : PublicUser)
    (h : (register db salt now body).2 = ⟨201, .registerOk m tok pu⟩)
    (hnow : now' ≤ now + SEVEN_DAYS) :
    jwtVerify JWT_SECRET now' tok = some pu.id ∧
    ∃ u : User, (register db salt now body).1.users = db.users ++ [u] ∧
      u.id = pu.id := by
  match body with
  | none => simp [register] at h
  | some b =>
    rcases hwfu : strFalsy b.username with _ | _
    rotate_left
    · rw [show register db salt now (some b) =
          (db, ⟨400, .error "Please provide username, email, and password."⟩) by
            unfold register; simp [hwfu]] at h
      simp at h
    rcases hwfe : strFalsy b.email with _ | _
    rotate_left
    · rw [show register db salt now (some b) =
          (db, ⟨400, .error "Please provide username, email, and password."⟩) by
            unfold register; simp [hwfe]] at h
      simp at h
    rcases hwfp : strFalsy b.password with _ | _
    rotate_left
    · rw [show register db salt now (some b) =
          (db, ⟨400, .error "Please provide username, email, and password."⟩) by
            unfold register; simp [hwfp]] at h
      simp at h
    cases hfind : db.users.find?
        (fun u => u.username = b.username.getD "" || u.email = b.email.getD "") with
    | some u =>
      rw [register_conflict_eq db salt now b hwfu hwfe hwfp u hfind] at h
      simp at h
    | none =>
      rw [register_success_eq db salt now b hwfu hwfe hwfp hfind] at h ⊢
      simp only [Resp.mk.injEq, RespBody.registerOk.injEq] at h
      obtain ⟨-, -, htok, hpu⟩ := h
      subst htok
      refine ⟨?_, ⟨db.nextUserId, b.username.getD "", b.email.getD "",
        bcryptHash (b.password.getD "") salt⟩, by simp, ?_⟩
      · rw [jwtVerify_jwtSign _ _ _ _ hnow, ← hpu]
      · rw [← hpu]

/-- Witness for C3: a concrete successful registration. -/
theorem register_token_verifies_witness :
    jwtVerify JWT_SECRET 0
        (jwtSign JWT_SECRET 1 0) = some (1 : Nat) ∧
    ∃ u : User,
      (register ⟨[], [], 1, 1⟩ 5 0
        (some ⟨some "alice", some "a@x.com", some "p1"⟩)).1.users = [] ++ [u] ∧
      u.id = 1 :=
  register_token_verifies ⟨[], [], 1, 1⟩ 5 0 0
    (some ⟨some "alice", some "a@x.com", some "p1"⟩)
    "User registered successfully" (jwtSign JWT_SECRET 1 0) ⟨1, "alice", "a@x.com"⟩
    (by decide) (Nat.zero_le _)

/-- Some existing user already holds the requested username or email. -/
def usernameOrEmailTaken (db : DB) (username email : String) : Prop :=
  ∃ u ∈ db.users, u.username = username ∨ u.email = email

/-- **C4.** Registration with non-empty username, email and password:
when the username or email is taken it answers `409` and leaves the
store unchanged; otherwise it appends exactly one user record storing
`bcryptHash password salt` (a `BcryptHash`, not the plaintext string)
and answers `201` with a token and a user object of only id, username
and email. -/
theorem register_spec (db : DB) (salt now : Nat) (b : RegisterBody)
    (hwfu : strFalsy b.username = false) (hwfe : strFalsy b.email = false)
    (hwfp : strFalsy b.password = false) :
    (usernameOrEmailTaken db (b.username.getD "") (b.email.getD "") →
      register db salt now (some b) =
        (db, ⟨409, .error "User with this username or email already exists."⟩)) ∧
    (¬ usernameOrEmailTaken db (b.username.getD "") (b.email.getD "") →
      register db salt now (some b) =
        ({ db with
            users := db.users ++
              [⟨db.nextUserId, b.username.getD "", b.email.getD "",
                bcryptHash (b.password.getD "") salt⟩],
            nextUserId := db.nextUserId + 1 },
         ⟨201, .registerOk "User registered successfully"
            (jwtSign JWT_SECRET db.nextUserId now)
            ⟨db.nextUserId, b.username.getD "", b.email.getD ""⟩⟩)) ∧
    bcryptCompare (b.password.getD "")
      (bcryptHash (b.password.getD "") salt) = true := by
  refine ⟨?_, ?_, by simp [bcryptCompare, bcryptHash]⟩
  · intro htaken
    obtain ⟨u, hu, hprop⟩ := htaken
    have hsome : (db.users.find?
        (fun u => u.username = b.username.getD "" ||
          u.email = b.email.getD "")).isSome := by
      rw [List.find?_isSome]
      exact ⟨u, hu, by simpa using hprop⟩
    obtain ⟨v, hv⟩ := Option.isSome_iff_exists.mp hsome
    exact register_conflict_eq db salt now b hwfu hwfe hwfp v hv
  · intro hfree
    have hnone : db.users.find?
        (fun u => u.username = b.username.getD "" ||
          u.email = b.email.getD "") = none := by
      rw [List.find?_eq_none]
      intro u hu hp
      exact hfree ⟨u, hu, by simpa using hp⟩
    exact register_success_eq db salt now b hwfu hwfe hwfp hnone

/-- Witness for C4: fresh registration into an empty store. -/
theorem register_spec_witness :
    (usernameOrEmailTaken ⟨[], [], 1, 1⟩ "alice" "a@x.com" →
      register ⟨[], [], 1, 1⟩ 5 0 (some ⟨some "alice", some "a@x.com", some "p1"⟩) =
        (⟨[], [], 1, 1⟩,
         ⟨409, .error "User with this username or email already exists."⟩)) ∧
    (¬ usernameOrEmailTaken ⟨[], [], 1, 1⟩ "alice" "a@x.com" →
      register ⟨[], [], 1, 1⟩ 5 0 (some ⟨some "alice", some "a@x.com", some "p1"⟩) =
        ({ users := [] ++ [⟨1, "alice", "a@x.com", bcryptHash "p1" 5⟩],
           tasks := [], nextUserId := 2, nextTaskId := 1 },
         ⟨201, .registerOk "User registered successfully"
            (jwtSign JWT_SECRET 1 0) ⟨1, "alice", "a@x.com"⟩⟩)) ∧
    bcryptCompare "p1" (bcryptHash "p1" 5) = true :=
  register_spec ⟨[], [], 1, 1⟩ 5 0 ⟨some "alice", some "a@x.com", some "p1"⟩
    (by decide) (by decide) (by decide)

/-- **C5.** The auth gate on `/api/tasks`: with no extractable bearer
token the request is rejected `401` with the store untouched and the
handler never run; with a token that fails verification (bad signature
or expired) it is rejected `403`, store untouched, handler never run;
with a verifying token the handler runs with the token's `userId` as
the request identity. -/
theorem auth_gate_spec (now : Nat) (hdr : AuthHeader)
    (handler : Nat → DB → DB × Resp) (db : DB) :
    (extractToken hdr = none →
      runProtected now hdr handler db =
        (db, ⟨401, .error "Unauthorized: Token missing."⟩)) ∧
    (∀ t, extractToken hdr = some t → jwtVerify JWT_SECRET now t = none →
      runProtected now hdr handler db =
        (db, ⟨403, .error "Forbidden: Invalid or expired token."⟩)) ∧
    (∀ t uid, extractToken hdr = some t → jwtVerify JWT_SECRET now t = some uid →
      runProtected now hdr handler db = handler uid db) := by
  refine ⟨?_, ?_, ?_⟩
  · intro hnone
    simp [runProtected, authenticateToken, hnone]
  · intro t hsome hbad
    simp [runProtected, authenticateToken, hsome, hbad]
  · intro t uid hsome hok
    simp [runProtected, authenticateToken, hsome, hok]

/-- Witness for C5: a missing header is rejected `401`. -/
theorem auth_gate_spec_witness :
    runProtected 0 .missing (fun uid db => (db, getTasks db uid)) ⟨[], [], 1, 1⟩ =
      (⟨[], [], 1, 1⟩, ⟨401, .error "Unauthorized: Token missing."⟩) :=
  (auth_gate_spec 0 .missing (fun uid db => (db, getTasks db uid))
    ⟨[], [], 1, 1⟩).1 rfl

/-- `taskLe` is transitive. -/
theorem taskLe_trans : ∀ a b c : Task, taskLe a b → taskLe b c → taskLe a c := by
  intro a b c hab hbc
  cases ha : a.isDone <;> cases hb : b.isDone <;> cases hc : c.isDone <;>
    simp_all [taskLe] <;> omega

/-- `taskLe` is total. -/
theorem taskLe_total : ∀ a b : Task, taskLe a b || taskLe b a := by
  intro a b
  cases ha : a.isDone <;> cases hb : b.isDone <;> simp_all [taskLe] <;> omega

/-- Every task the list endpoint returns belongs to the requesting
user: the `findMany` is filtered by `authorId`. -/
theorem mem_getTasksList_authorId (db : DB) (uid : Nat) :
    ∀ ft ∈ getTasksList db uid, ft.authorId = uid := by
  intro ft hft
  simp only [getTasksList, List.mem_map, List.mem_mergeSort,
    List.mem_filter] at hft
  obtain ⟨t, ⟨-, hauth⟩, hmap⟩ := hft
  rw [← hmap]
  simpa [mapPrismaToFlutter] using hauth

/-- **C6.** `GET /api/tasks` answers `200` with a list that is a
permutation of the user's own tasks (exactly the rows whose `authorId`
is the authenticated id, in the external field naming), every element
of which belongs to that user, ordered with incomplete tasks before
completed ones and by ascending id within each completion group. -/
theorem getTasks_spec (db : DB) (uid : Nat) :
    getTasks db uid = ⟨200, .taskList (getTasksList db uid)⟩ ∧
    (getTasksList db uid).Perm
      ((db.tasks.filter (fun t => t.authorId = uid)).map mapPrismaToFlutter) ∧
    (∀ ft ∈ getTasksList db uid, ft.authorId = uid) ∧
    (getTasksList db uid).Pairwise (fun a b =>
      (a.completed = true → b.completed = true) ∧
      (a.completed = b.completed → a.id ≤ b.id)) := by
  refine ⟨rfl, ?_, ?_, ?_⟩
  · exact ((db.tasks.filter (fun t => t.authorId = uid)).mergeSort_perm
      taskLe).map mapPrismaToFlutter
  · exact mem_getTasksList_authorId db uid
  · have hs := @List.sorted_mergeSort Task taskLe taskLe_trans taskLe_total
      (db.tasks.filter (fun t => t.authorId = uid))
    unfold getTasksList
    rw [List.pairwise_map]
    refine hs.imp ?_
    intro a b hab
    cases ha : a.isDone <;> cases hb : b.isDone <;>
      simp_all [taskLe, mapPrismaToFlutter]

/-- **C7.** `POST /api/tasks`: a missing or blank-after-trim title is
rejected `400` with the store untouched; otherwise exactly one task is
appended, starting `completed = false` and owned by the authenticated
user, whatever `completed`, `isDone` or `authorId` the client put in
the body. -/
theorem createTask_spec (db : DB) (uid : Nat) (body : TaskBody) :
    ((strFalsy body.title = true ∨ jsTrim (body.title.getD "") = "") →
      createTask db uid body = (db, ⟨400, .error "Task title is required."⟩)) ∧
    (∀ tl, body.title = some tl → ¬ jsTrim tl = "" →
      createTask db uid body =
        ({ db with tasks := db.tasks ++ [⟨db.nextTaskId, tl, false, uid⟩],
                   nextTaskId := db.nextTaskId + 1 },
         ⟨201, .task ⟨db.nextTaskId, tl, false, uid⟩⟩)) := by
  constructor
  · intro hbad
    unfold createTask
    rcases hbad with hf | hblank
    · simp [hf]
    · simp [hblank]
  · intro tl htl hok
    have hf : strFalsy (some tl) = false := by
      simp only [strFalsy, decide_eq_false_iff_not]
      intro hemp
      subst hemp
      exact hok rfl
    unfold createTask
    rw [htl]
    simp [hf, hok, mapPrismaToFlutter]

/-- Witness for C7: creating a task with a spoofed owner and completion
in the body still yields `completed = false` and the caller's id. -/
theorem createTask_spec_witness :
    createTask ⟨[], [], 2, 1⟩ 1 ⟨some "buy milk", some true, some true, some 99⟩ =
      ({ users := [], tasks := [] ++ [⟨1, "buy milk", false, 1⟩],
         nextUserId := 2, nextTaskId := 2 },
       ⟨201, .task ⟨1, "buy milk", false, 1⟩⟩) :=
  (createTask_spec ⟨[], [], 2, 1⟩ 1
      ⟨some "buy milk", some true, some true, some 99⟩).2
    "buy milk" rfl (by decide)

/-- **C10.** A PUT body with no `title` and no `completed` but a
non-null `isDone` is not rejected as invalid input; when a task matches
the `(id, authorId)` scope, the update succeeds with `200` and the
matched rows take the supplied `isDone` value as their new completion
state. -/
theorem update_isDone_fallback (db : DB) (uid tid : Nat) (bv : Bool)
    (body : TaskBody) (htl : body.title = none) (hc : body.completed = none)
    (hi : body.isDone = some bv) :
    (updateTask db uid (some tid) body).2.status ≠ 400 ∧
    ((∃ t ∈ db.tasks, t.id = tid ∧ t.authorId = uid) →
      (updateTask db uid (some tid) body).1.tasks =
        db.tasks.map (fun t =>
          if t.id = tid ∧ t.authorId = uid then { t with isDone := bv } else t) ∧
      (updateTask db uid (some tid) body).2.status = 200) := by
  have hupd : updDone body = some bv := by simp [updDone, hc, hi]
  unfold updateTask
  simp only [htl, hupd, reduceCtorEq, false_and, if_false, and_false]
  by_cases hcnt :
      (db.tasks.filter (fun t => t.id = tid && t.authorId = uid)).length = 0
  · rw [if_pos hcnt]
    refine ⟨by simp, ?_⟩
    rintro ⟨t, ht, hid, hauth⟩
    rw [List.length_eq_zero] at hcnt
    have := List.filter_eq_nil_iff.mp hcnt t ht
    simp [hid, hauth] at this
  · rw [if_neg hcnt]
    refine ⟨by simp, fun _ => ⟨?_, rfl⟩⟩
    simp only
    apply List.map_congr_left
    intro t _
    by_cases hmatch : t.id = tid ∧ t.authorId = uid
    · simp [applyUpdate, hmatch, htl, hupd]
    · simp [applyUpdate, hmatch]

/-- Witness for C10: updating via `isDone` alone flips the task. -/
theorem update_isDone_fallback_witness :
    (updateTask ⟨[], [⟨1, "t", false, 7⟩], 1, 2⟩ 7 (some 1)
        ⟨none, none, some true, none⟩).2.status ≠ 400 ∧
    ((∃ t ∈ [Task.mk 1 "t" false 7], t.id = 1 ∧ t.authorId = 7) →
      (updateTask ⟨[], [⟨1, "t", false, 7⟩], 1, 2⟩ 7 (some 1)
          ⟨none, none, some true, none⟩).1.tasks =
        [Task.mk 1 "t" false 7].map (fun t =>
          if t.id = 1 ∧ t.authorId = 7 then { t with isDone := true } else t) ∧
      (updateTask ⟨[], [⟨1, "t", false, 7⟩], 1, 2⟩ 7 (some 1)
          ⟨none, none, some true, none⟩).2.status = 200) :=
  update_isDone_fallback ⟨[], [⟨1, "t", false, 7⟩], 1, 2⟩ 7 1 true
    ⟨none, none, some true, none⟩ rfl rfl rfl

/-- **C8 counterexample.** A PUT request with a valid task id whose
body supplies neither `title` nor `completed` — only `isDone: true` —
is *not* rejected with `400`: the handler accepts it and answers `200`
(the `isDone` fallback of `src/server.js` lines 251-254). -/
theorem update_no_fields_counterexample :
    (updateTask ⟨[], [⟨1, "walk dog", false, 7⟩], 1, 2⟩ 7 (some 1)
        ⟨none, none, some true, none⟩).2.status = 200 := by rfl

/-- **C8 (amended).** For an authenticated update with a valid task id:
a body supplying none of `title`, `completed` and `isDone` is rejected
as invalid input (`400`), and a body whose `title` is blank after
trimming is rejected as invalid input (`400`); in both failure cases
the store is returned unchanged. -/
theorem update_validation_spec (db : DB) (uid tid : Nat) (body : TaskBody) :
    (body.title = none → body.completed = none → body.isDone = none →
      updateTask db uid (some tid) body =
        (db, ⟨400, .error "Must provide title or completed status for update."⟩)) ∧
    (∀ tl, body.title = some tl → jsTrim tl = "" →
      updateTask db uid (some tid) body =
        (db, ⟨400, .error "Task title cannot be empty."⟩)) := by
  constructor
  · intro ht hc hi
    unfold updateTask
    simp [ht, hc, hi, updDone]
  · intro tl htl hblank
    unfold updateTask
    simp [htl, hblank]

/-- Witness for C8 (amended): an all-empty body is rejected `400`. -/
theorem update_validation_spec_witness :
    updateTask ⟨[], [⟨1, "walk dog", false, 7⟩], 1, 2⟩ 7 (some 1)
        ⟨none, none, none, none⟩ =
      (⟨[], [⟨1, "walk dog", false, 7⟩], 1, 2⟩,
       ⟨400, .error "Must provide title or completed status for update."⟩) :=
  (update_validation_spec ⟨[], [⟨1, "walk dog", false, 7⟩], 1, 2⟩ 7 1
    ⟨none, none, none, none⟩).1 rfl rfl rfl

/-- `applyUpdate` never changes a row's id. -/
theorem applyUpdate_id (body : TaskBody) (taskId userId : Nat) (t : Task) :
    (applyUpdate body taskId userId t).id = t.id := by
  unfold applyUpdate
  by_cases h : t.id = taskId ∧ t.authorId = userId <;> simp [h]

/-- `findUnique` over the updated table: when `t` is the unique row with
its id, the re-fetch finds exactly the updated image of `t`. -/
theorem find?_map_id_eq (l : List Task) (t : Task) (f : Task → Task)
    (hf : ∀ x, (f x).id = x.id) (ht : t ∈ l)
    (huniq : ∀ t' ∈ l, t'.id = t.id → t' = t) :
    (l.map f).find? (fun x => x.id = t.id) = some (f t) := by
  induction l with
  | nil => cases ht
  | cons a l ih =>
    by_cases ha : a.id = t.id
    · have haeq : a = t := huniq a (List.mem_cons_self a l) ha
      subst haeq
      rw [List.map_cons, List.find?_cons_of_pos _ (by simp [hf])]
    · have ht' : t ∈ l := by
        rcases List.mem_cons.mp ht with rfl | h
        · exact absurd rfl ha
        · exact h
      rw [List.map_cons, List.find?_cons_of_neg _ (by simp [hf, ha])]
      exact ih ht' (fun t' h' => huniq t' (List.mem_cons_of_mem _ h'))

/-- **C9.** The `isDone`/`completed` rename is deterministic and
lossless both ways: any task object a successful create returns has
`completed = false` (the row starts with `isDone = false`); and
updating a task's `completed` to `b` stores `isDone = b`, the update
response re-fetches the row and reports `completed = b`, and the task
as re-fetched through `GET /api/tasks` again carries `completed = b`. -/
theorem completed_roundtrip (db : DB) (uid : Nat) (cb : TaskBody) (t : Task)
    (bv : Bool) (io : Option Bool) (ao : Option Nat)
    (ht : t ∈ db.tasks) (hauth : t.authorId = uid)
    (huniq : ∀ t' ∈ db.tasks, t'.id = t.id → t' = t) :
    (∀ ft, (createTask db uid cb).2.body = .task ft → ft.completed = false) ∧
    (updateTask db uid (some t.id) ⟨none, some bv, io, ao⟩ =
      ({ db with tasks := db.tasks.map (applyUpdate ⟨none, some bv, io, ao⟩ t.id uid) },
       ⟨200, .taskOpt (some ⟨t.id, t.title, bv, uid⟩)⟩)) ∧
    applyUpdate ⟨none, some bv, io, ao⟩ t.id uid t = { t with isDone := bv } ∧
    mapPrismaToFlutter { t with isDone := bv } ∈
      getTasksList
        (updateTask db uid (some t.id) ⟨none, some bv, io, ao⟩).1 uid ∧
    (mapPrismaToFlutter { t with isDone := bv }).completed = bv := by
  have happ : applyUpdate ⟨none, some bv, io, ao⟩ t.id uid t =
      { t with isDone := bv } := by
    unfold applyUpdate
    rw [if_pos ⟨rfl, hauth⟩]
    simp [updDone]
  have hcnt : ¬ (db.tasks.filter
      (fun t' => t'.id = t.id && t'.authorId = uid)).length = 0 := by
    have hmem : t ∈ db.tasks.filter
        (fun t' => t'.id = t.id && t'.authorId = uid) := by
      simp [List.mem_filter, ht, hauth]
    intro h0
    rw [List.length_eq_zero] at h0
    rw [h0] at hmem
    cases hmem
  have hupdEq : updateTask db uid (some t.id) ⟨none, some bv, io, ao⟩ =
      ({ db with tasks := db.tasks.map (applyUpdate ⟨none, some bv, io, ao⟩ t.id uid) },
       ⟨200, .taskOpt (some ⟨t.id, t.title, bv, uid⟩)⟩) := by
    unfold updateTask
    simp only [updDone, reduceCtorEq, false_and, if_false, Bool.false_eq_true]
    rw [if_neg hcnt]
    rw [find?_map_id_eq db.tasks t _ (applyUpdate_id _ _ _) ht huniq, happ]
    simp [mapPrismaToFlutter, hauth]
  refine ⟨?_, hupdEq, happ, ?_, rfl⟩
  · intro ft hft
    unfold createTask at hft
    by_cases hbad : (strFalsy cb.title || (jsTrim (cb.title.getD "") == "")) = true
    · rw [if_pos (by simpa using hbad)] at hft
      simp at hft
    · rw [if_neg (by simpa using hbad)] at hft
      simp only [RespBody.task.injEq] at hft
      rw [← hft]
      rfl
  · rw [hupdEq]
    simp only [getTasksList, List.mem_map]
    refine ⟨{ t with isDone := bv }, ?_, rfl⟩
    rw [List.mem_mergeSort, List.mem_filter]
    constructor
    · rw [← happ]
      exact List.mem_map_of_mem _ ht
    · simpa using hauth

/-- Witness for C9: flipping a concrete task to completed. -/
theorem completed_roundtrip_witness :
    (∀ ft, (createTask ⟨[], [⟨1, "walk dog", false, 7⟩], 1, 2⟩ 7
        ⟨some "x", none, none, none⟩).2.body = .task ft →
      ft.completed = false) ∧
    (updateTask ⟨[], [⟨1, "walk dog", false, 7⟩], 1, 2⟩ 7 (some 1)
        ⟨none, some true, none, none⟩ =
      ({ users := [],
         tasks := [Task.mk 1 "walk dog" false 7].map
           (applyUpdate ⟨none, some true, none, none⟩ 1 7),
         nextUserId := 1, nextTaskId := 2 },
       ⟨200, .taskOpt (some ⟨1, "walk dog", true, 7⟩)⟩)) ∧
    applyUpdate ⟨none, some true, none, none⟩ 1 7 (Task.mk 1 "walk dog" false 7) =
      { Task.mk 1 "walk dog" false 7 with isDone := true } ∧
    mapPrismaToFlutter { Task.mk 1 "walk dog" false 7 with isDone := true } ∈
      getTasksList (updateTask ⟨[], [⟨1, "walk dog", false, 7⟩], 1, 2⟩ 7 (some 1)
        ⟨none, some true, none, none⟩).1 7 ∧
    (mapPrismaToFlutter
      { Task.mk 1 "walk dog" false 7 with isDone := true }).completed = true :=
  completed_roundtrip ⟨[], [⟨1, "walk dog", false, 7⟩], 1, 2⟩ 7
    ⟨some "x", none, none, none⟩ (Task.mk 1 "walk dog" false 7) true none none
    (List.mem_singleton.mpr rfl) rfl
    (fun _ h' _ => List.mem_singleton.mp h')

/-- `deleteMany` scoped to `(id, authorId)` answers the merged `404`
and leaves the store unchanged when no row matches. -/
theorem deleteTask_notFound_eq (db : DB) (uid taskId : Nat)
    (hlen : (db.tasks.filter
      (fun t' => t'.id = taskId && t'.authorId = uid)).length = 0) :
    deleteTask db uid (some taskId) =
      (db, ⟨404, .error "Task not found or unauthorized."⟩) := by
  unfold deleteTask
  simp [hlen]

/-- **C1.** Ownership isolation: for a task belonging to user `A` and
any other authenticated identity `b`, the list endpoint never returns
the task, and update and delete through `b`'s identity leave the store
unchanged and never succeed — update answers the merged `404` whenever
its body passes the handler's own input validation, and delete always
answers the merged `404`. -/
theorem cross_user_isolation (db : DB) (t : Task) (b : Nat) (body : TaskBody)
    (hb : b ≠ t.authorId)
    (huniq : ∀ t' ∈ db.tasks, t'.id = t.id → t' = t) :
    mapPrismaToFlutter t ∉ getTasksList db b ∧
    (updateTask db b (some t.id) body).1 = db ∧
    (updateTask db b (some t.id) body).2.status ≠ 200 ∧
    (updateBodyValid body →
      updateTask db b (some t.id) body =
        (db, ⟨404, .error "Task not found or unauthorized."⟩)) ∧
    deleteTask db b (some t.id) =
      (db, ⟨404, .error "Task not found or unauthorized."⟩) := by
  have hfilter : db.tasks.filter
      (fun t' => t'.id = t.id && t'.authorId = b) = [] := by
    rw [List.filter_eq_nil_iff]
    intro a ha
    simp only [Bool.and_eq_true, decide_eq_true_eq, not_and]
    intro hid hba
    exact hb ((huniq a ha hid ▸ hba : t.authorId = b).symm)
  have hlen : (db.tasks.filter
      (fun t' => t'.id = t.id && t'.authorId = b)).length = 0 := by
    rw [hfilter]
    rfl
  refine ⟨?_, ?_⟩
  · intro hmem
    have := mem_getTasksList_authorId db b _ hmem
    simp only [mapPrismaToFlutter] at this
    exact hb this.symm
  · cases hbtitle : body.title with
    | some tl =>
      by_cases hbl : jsTrim tl = ""
      · have hupd : updateTask db b (some t.id) body =
            (db, ⟨400, .error "Task title cannot be empty."⟩) := by
          unfold updateTask
          simp [hbtitle, hbl]
        refine ⟨by rw [hupd], by rw [hupd]; simp, ?_, ?_⟩
        · intro hvalid
          exact absurd hbl (hvalid.1 tl hbtitle)
        · exact deleteTask_notFound_eq db b t.id hlen
      · have hupd : updateTask db b (some t.id) body =
            (db, ⟨404, .error "Task not found or unauthorized."⟩) := by
          unfold updateTask
          simp only [hbtitle, beq_iff_eq, hbl, if_false, reduceCtorEq,
            false_and, Bool.false_eq_true]
          rw [if_pos hlen]
        refine ⟨by rw [hupd], by rw [hupd]; simp, fun _ => hupd,
          deleteTask_notFound_eq db b t.id hlen⟩
    | none =>
      cases hdone : updDone body with
      | none =>
        have hupd : updateTask db b (some t.id) body =
            (db, ⟨400, .error "Must provide title or completed status for update."⟩) := by
          unfold updateTask
          simp [hbtitle, hdone]
        refine ⟨by rw [hupd], by rw [hupd]; simp, ?_, ?_⟩
        · intro hvalid
          exact absurd ⟨hbtitle, hdone⟩ hvalid.2
        · exact deleteTask_notFound_eq db b t.id hlen
      | some bv =>
        have hupd : updateTask db b (some t.id) body =
            (db, ⟨404, .error "Task not found or unauthorized."⟩) := by
          unfold updateTask
          simp only [hbtitle, hdone, if_false, reduceCtorEq, and_false,
            Bool.false_eq_true]
          rw [if_pos hlen]
        refine ⟨by rw [hupd], by rw [hupd]; simp, fun _ => hupd,
          deleteTask_notFound_eq db b t.id hlen⟩

/-- Witness for C1: user 2 can neither see nor update nor delete user
7's task. -/
theorem cross_user_isolation_witness :
    mapPrismaToFlutter (Task.mk 1 "walk dog" false 7) ∉
      getTasksList ⟨[], [⟨1, "walk dog", false, 7⟩], 1, 2⟩ 2 ∧
    (updateTask ⟨[], [⟨1, "walk dog", false, 7⟩], 1, 2⟩ 2 (some 1)
        ⟨none, some true, none, none⟩).1 =
      ⟨[], [⟨1, "walk dog", false, 7⟩], 1, 2⟩ ∧
    (updateTask ⟨[], [⟨1, "walk dog", false, 7⟩], 1, 2⟩ 2 (some 1)
        ⟨none, some true, none, none⟩).2.status ≠ 200 ∧
    (updateBodyValid ⟨none, some true, none, none⟩ →
      updateTask ⟨[], [⟨1, "walk dog", false, 7⟩], 1, 2⟩ 2 (some 1)
          ⟨none, some true, none, none⟩ =
        (⟨[], [⟨1, "walk dog", false, 7⟩], 1, 2⟩,
         ⟨404, .error "Task not found or unauthorized."⟩)) ∧
    deleteTask ⟨[], [⟨1, "walk dog", false, 7⟩], 1, 2⟩ 2 (some 1) =
      (⟨[], [⟨1, "walk dog", false, 7⟩], 1, 2⟩,
       ⟨404, .error "Task not found or unauthorized."⟩) :=
  cross_user_isolation ⟨[], [⟨1, "walk dog", false, 7⟩], 1, 2⟩
    (Task.mk 1 "walk dog" false 7) 2 ⟨none, some true, none, none⟩
    (by decide) (fun _ h' _ => List.mem_singleton.mp h')

end Todo
